import Mathlib

/-!
Shallow embedding of the two simulation scripts of this repository,
`alien_weaponry.py` and `copyandpaste.py` (both under `.github/workflows/`).

Python floats are modelled as exact rationals (ℚ).  The transcendental
library calls of the scripts (`np.sqrt`, `np.log1p`, `np.exp`, `np.tanh`,
`np.pi`) are abstracted into a `MathFns` record of rational functions, so
every theorem quantifying over `MathFns` holds for every interpretation of
those calls.  Over ℚ no arithmetic operation overflows, so the state
recurrences below are the exception-free executions of the loops.
-/

/-- The transcendental functions and constants the scripts take from numpy,
abstracted as parameters of the embedding. -/
structure MathFns where
  sqrt : ℚ → ℚ
  log1p : ℚ → ℚ
  exp : ℚ → ℚ
  tanh : ℚ → ℚ
  pi : ℚ

/-- A concrete instantiation of `MathFns`, used to evaluate the embedding on
concrete inputs (the quantities checked there do not depend on the choice). -/
def testFns : MathFns :=
  { sqrt := fun x => x
    log1p := fun x => x
    exp := fun x => x
    tanh := fun x => x
    pi := 314159 / 100000 }

/-! ## alien_weaponry.py -/

/-- Constants of `alien_weaponry.py` (lines 7-23). -/
structure AWConsts where
  c : ℚ
  B : ℚ
  initial_acceleration : ℚ
  max_acceleration : ℚ
  damping_factor : ℚ
  mass_particle : ℚ
  num_particles : ℚ
  cap_value : ℚ
  observer_influence_factor : ℚ
  observer_interval : ℕ
  initial_observers : ℚ
  volume_per_observer : ℚ
  total_time : ℚ
  time_steps : ℕ

/-- Time step size, `dt = total_time / time_steps` (line 23). -/
def AWConsts.dt (C : AWConsts) : ℚ := C.total_time / (C.time_steps : ℚ)

/-- The constant values of `alien_weaponry.py` as written in the source. -/
def awConsts : AWConsts :=
  { c := 3 * 10 ^ 8
    B := 40
    initial_acceleration := 22 / 10
    max_acceleration := 1381 / 100
    damping_factor := 1 / 100000
    mass_particle := 17 / 10 ^ 28
    num_particles := 10 ^ 45
    cap_value := 10 ^ 35
    observer_influence_factor := 11 / 10
    observer_interval := 100
    initial_observers := 1
    volume_per_observer := 1
    total_time := 6900
    time_steps := 69000 }

/-- `increasing_acceleration` of `alien_weaponry.py` (lines 51-52). -/
def increasing_acceleration (C : AWConsts) (t : ℚ) : ℚ :=
  C.initial_acceleration + (C.max_acceleration - C.initial_acceleration) * (t / C.total_time)

/-- Magnetic permeability `mu_0 = 4 * np.pi * 1e-7` (line 59). -/
def mu_0 (M : MathFns) : ℚ := 4 * M.pi * (1 / 10 ^ 7)

/-- `magnetic_pressure_effect` of `alien_weaponry.py` (lines 55-56). -/
def magnetic_pressure_effect (M : MathFns) (B : ℚ) : ℚ := B ^ 2 / (2 * mu_0 M)

/-- The scalar state variables of the `alien_weaponry.py` loop.  The fields
`volume`, `time_dilation` and `dimension_portal_probability` are recomputed
each iteration; their value at index 0 is the 0 stored in the result arrays. -/
structure AWState where
  plasma_velocity : ℚ
  lorentz_factor : ℚ
  energy_density : ℚ
  field_strength : ℚ
  temperature : ℚ
  pressure : ℚ
  quantum_tunneling_probability : ℚ
  spacetime_curvature : ℚ
  current_observers : ℚ
  volume : ℚ
  time_dilation : ℚ
  dimension_portal_probability : ℚ

/-- Initial conditions of `alien_weaponry.py` (lines 40-48). -/
def awInit (C : AWConsts) : AWState :=
  { plasma_velocity := 0
    lorentz_factor := 1
    energy_density := 1 / 10 ^ 12
    field_strength := 1 / 10 ^ 20
    temperature := 10 ^ 7
    pressure := 100000
    quantum_tunneling_probability := 1 / 10
    spacetime_curvature := 10 ^ 23
    current_observers := C.initial_observers
    volume := 0
    time_dilation := 0
    dimension_portal_probability := 0 }

/-- One iteration of the `alien_weaponry.py` simulation loop body
(lines 62-121), at loop index `i`; `time_array[i] = i * dt`. -/
def awStep (M : MathFns) (C : AWConsts) (i : ℕ) (s : AWState) : AWState :=
  let current_time : ℚ := (i : ℚ) * C.dt
  let acceleration := increasing_acceleration C current_time
  let v0 := s.plasma_velocity + (acceleration - C.damping_factor * s.plasma_velocity) * C.dt
  let plasma_velocity := if v0 ≥ C.c then C.c - 1 / 10 ^ 10 else v0
  let lorentz_factor := 1 / M.sqrt (1 - (plasma_velocity / C.c) ^ 2)
  let pressure := magnetic_pressure_effect M C.B
  let current_observers :=
    if i % C.observer_interval = 0 ∧ s.current_observers < 10 ^ 6 then
      s.current_observers + 2
    else s.current_observers
  let observer_factor := M.log1p (C.observer_influence_factor * current_observers)
  let fs0 := s.field_strength * observer_factor
  let field_strength := if fs0 > C.cap_value then C.cap_value else fs0
  let energy_density := min (1 / 2 * field_strength ^ 2 * plasma_velocity ^ 2) C.cap_value
  let volume := current_observers * C.volume_per_observer
  let temperature := s.temperature + 10 ^ 5 * C.dt
  let quantum_tunneling_probability := 1 - M.exp (-(field_strength / C.cap_value))
  let spacetime_curvature := 2 * energy_density / C.c ^ 4
  let time_dilation :=
    lorentz_factor * M.sqrt (1 - 2 * spacetime_curvature * C.mass_particle / C.c ^ 2)
  let dimension_portal_probability := M.tanh (spacetime_curvature / C.cap_value)
  { plasma_velocity := plasma_velocity
    lorentz_factor := lorentz_factor
    energy_density := energy_density
    field_strength := field_strength
    temperature := temperature
    pressure := pressure
    quantum_tunneling_probability := quantum_tunneling_probability
    spacetime_curvature := spacetime_curvature
    current_observers := current_observers
    volume := volume
    time_dilation := time_dilation
    dimension_portal_probability := dimension_portal_probability }

/-- State after the first `i` iterations of the `alien_weaponry.py` loop:
iteration `k` of the loop runs at index `k`, so the values stored in the
result arrays at index `i ≥ 1` are the fields of `awState M C i`. -/
def awState (M : MathFns) (C : AWConsts) : ℕ → AWState
  | 0 => awInit C
  | i + 1 => awStep M C (i + 1) (awState M C i)

/-! ## copyandpaste.py -/

/-- Constants of `copyandpaste.py` (lines 6-21). -/
structure CPConsts where
  c : ℚ
  B : ℚ
  acceleration : ℚ
  damping_factor : ℚ
  mass_particle : ℚ
  num_particles : ℚ
  cap_value : ℚ
  observer_influence_factor : ℚ
  observer_interval : ℕ
  initial_observers : ℚ
  volume_per_observer : ℚ
  total_time : ℚ
  time_steps : ℕ

/-- Time step size, `dt = total_time / time_steps` (line 21). -/
def CPConsts.dt (C : CPConsts) : ℚ := C.total_time / (C.time_steps : ℚ)

/-- The constant values of `copyandpaste.py` as written in the source. -/
def cpConsts : CPConsts :=
  { c := 3 * 10 ^ 8
    B := 30
    acceleration := 981 / 100
    damping_factor := 1 / 100000
    mass_particle := 167 / 10 ^ 29
    num_particles := 10 ^ 30
    cap_value := 10 ^ 24
    observer_influence_factor := 11 / 10
    observer_interval := 45
    initial_observers := 1
    volume_per_observer := 1
    total_time := 9600
    time_steps := 96000 }

/-- The scalar state variables of the `copyandpaste.py` loop. -/
structure CPState where
  plasma_velocity : ℚ
  lorentz_factor : ℚ
  energy_density : ℚ
  field_strength : ℚ
  temperature : ℚ
  pressure : ℚ
  quantum_tunneling_probability : ℚ
  spacetime_curvature : ℚ
  current_observers : ℚ
  volume : ℚ

/-- Initial conditions of `copyandpaste.py` (lines 36-44). -/
def cpInit (C : CPConsts) : CPState :=
  { plasma_velocity := 0
    lorentz_factor := 1
    energy_density := 0
    field_strength := 10 ^ 20
    temperature := 10 ^ 7
    pressure := 100000
    quantum_tunneling_probability := 1 / 10
    spacetime_curvature := 1 / 10 ^ 35
    current_observers := C.initial_observers
    volume := 0 }

/-- One iteration of the `copyandpaste.py` simulation loop body
(lines 47-92), at loop index `i`. -/
def cpStep (M : MathFns) (C : CPConsts) (i : ℕ) (s : CPState) : CPState :=
  let plasma_velocity :=
    s.plasma_velocity + (C.acceleration - C.damping_factor * s.plasma_velocity) * C.dt
  let lorentz_factor :=
    if plasma_velocity < C.c then 1 / M.sqrt (1 - (plasma_velocity / C.c) ^ 2)
    else plasma_velocity / C.c
  let current_observers :=
    if i % C.observer_interval = 0 then
      let doubled := s.current_observers * 2
      if doubled > 10 ^ 6 then 10 ^ 6 else doubled
    else s.current_observers
  let observer_factor := M.log1p (C.observer_influence_factor * current_observers)
  let fs0 := s.field_strength * observer_factor
  let field_strength := if fs0 > C.cap_value then C.cap_value else fs0
  let energy_density := min (1 / 2 * field_strength ^ 2 * plasma_velocity ^ 2) C.cap_value
  let volume := current_observers * C.volume_per_observer
  let temperature := s.temperature + 10 ^ 5 * C.dt
  let pressure := s.pressure + 500 * C.dt
  let quantum_tunneling_probability := 1 - M.exp (-(field_strength / C.cap_value))
  let spacetime_curvature := 2 * energy_density / C.c ^ 4
  { plasma_velocity := plasma_velocity
    lorentz_factor := lorentz_factor
    energy_density := energy_density
    field_strength := field_strength
    temperature := temperature
    pressure := pressure
    quantum_tunneling_probability := quantum_tunneling_probability
    spacetime_curvature := spacetime_curvature
    current_observers := current_observers
    volume := volume }

/-- State after the first `i` iterations of the `copyandpaste.py` loop. -/
def cpState (M : MathFns) (C : CPConsts) : ℕ → CPState
  | 0 => cpInit C
  | i + 1 => cpStep M C (i + 1) (cpState M C i)

/-! ## Result arrays and the OverflowError handlers -/

/-- Pointwise update of a result array at one index. -/
def upd (f : ℕ → ℚ) (i : ℕ) (v : ℚ) : ℕ → ℚ := fun j => if j = i then v else f j

/-- A Python value as far as subscripting is concerned: a float or an array. -/
inductive PyVal where
  | num : ℚ → PyVal
  | arr : (ℕ → ℚ) → PyVal

/-- The runtime errors the handler bodies can raise. -/
inductive PyErr where
  | typeError : PyErr
deriving DecidableEq

/-- Python subscripting `x[k]`: indexing a float raises `TypeError`. -/
def pySubscript : PyVal → ℕ → Except PyErr ℚ
  | PyVal.num _, _ => Except.error PyErr.typeError
  | PyVal.arr f, k => Except.ok (f k)

/-- The result arrays of `alien_weaponry.py` (lines 27-37). -/
structure AWArrays where
  plasma_velocity_array : ℕ → ℚ
  lorentz_factor_array : ℕ → ℚ
  energy_density_array : ℕ → ℚ
  field_strength_array : ℕ → ℚ
  temperature_array : ℕ → ℚ
  pressure_array : ℕ → ℚ
  quantum_tunneling_probability_array : ℕ → ℚ
  spacetime_curvature_array : ℕ → ℚ
  volume_array : ℕ → ℚ
  time_dilation_array : ℕ → ℚ
  dimension_portal_probability_array : ℕ → ℚ

/-- The `except OverflowError` handler of `alien_weaponry.py` (lines 123-135),
executed statement by statement.  Line 127 reads `cap_value[i-1]` where
`cap_value` is the float `1e35`, so after the first two assignments the
handler raises `TypeError`; the result is the arrays as mutated up to that
point, together with the outcome. -/
def awOverflowHandler (C : AWConsts) (a : AWArrays) (i : ℕ) :
    AWArrays × Except PyErr Unit :=
  let a := { a with
    plasma_velocity_array := upd a.plasma_velocity_array i (a.plasma_velocity_array (i - 1)) }
  let a := { a with
    lorentz_factor_array := upd a.lorentz_factor_array i (a.lorentz_factor_array (i - 1)) }
  match pySubscript (PyVal.num C.cap_value) (i - 1) with
  | Except.error e => (a, Except.error e)
  | Except.ok v =>
    let a := { a with
      energy_density_array := upd a.energy_density_array i v }
    let a := { a with
      field_strength_array := upd a.field_strength_array i (a.field_strength_array (i - 1)) }
    let a := { a with
      temperature_array := upd a.temperature_array i (a.temperature_array (i - 1)) }
    let a := { a with
      pressure_array := upd a.pressure_array i (a.pressure_array (i - 1)) }
    let a := { a with
      quantum_tunneling_probability_array :=
        upd a.quantum_tunneling_probability_array i (a.quantum_tunneling_probability_array (i - 1)) }
    let a := { a with
      spacetime_curvature_array := upd a.spacetime_curvature_array i (a.spacetime_curvature_array (i - 1)) }
    let a := { a with
      volume_array := upd a.volume_array i (a.volume_array (i - 1)) }
    let a := { a with
      time_dilation_array := upd a.time_dilation_array i (a.time_dilation_array (i - 1)) }
    let a := { a with
      dimension_portal_probability_array :=
        upd a.dimension_portal_probability_array i (a.dimension_portal_probability_array (i - 1)) }
    (a, Except.ok ())

/-- The result arrays of `copyandpaste.py` (lines 25-33). -/
structure CPArrays where
  plasma_velocity_array : ℕ → ℚ
  lorentz_factor_array : ℕ → ℚ
  energy_density_array : ℕ → ℚ
  field_strength_array : ℕ → ℚ
  temperature_array : ℕ → ℚ
  pressure_array : ℕ → ℚ
  quantum_tunneling_probability_array : ℕ → ℚ
  spacetime_curvature_array : ℕ → ℚ
  volume_array : ℕ → ℚ

/-- The `except OverflowError` handler of `copyandpaste.py` (lines 94-104).
Line 98 sets `energy_density_array[i] = cap_value`; every other array copies
its previous entry forward. -/
def cpOverflowHandler (C : CPConsts) (a : CPArrays) (i : ℕ) : CPArrays :=
  let a := { a with
    plasma_velocity_array := upd a.plasma_velocity_array i (a.plasma_velocity_array (i - 1)) }
  let a := { a with
    lorentz_factor_array := upd a.lorentz_factor_array i (a.lorentz_factor_array (i - 1)) }
  let a := { a with
    energy_density_array := upd a.energy_density_array i C.cap_value }
  let a := { a with
    field_strength_array := upd a.field_strength_array i (a.field_strength_array (i - 1)) }
  let a := { a with
    temperature_array := upd a.temperature_array i (a.temperature_array (i - 1)) }
  let a := { a with
    pressure_array := upd a.pressure_array i (a.pressure_array (i - 1)) }
  let a := { a with
    quantum_tunneling_probability_array :=
      upd a.quantum_tunneling_probability_array i (a.quantum_tunneling_probability_array (i - 1)) }
  let a := { a with
    spacetime_curvature_array := upd a.spacetime_curvature_array i (a.spacetime_curvature_array (i - 1)) }
  let a := { a with
    volume_array := upd a.volume_array i (a.volume_array (i - 1)) }
  a

/-! ## Exception clauses of the two loops -/

/-- The exception types named by the scripts' `except` clauses. -/
inductive PyExc where
  | overflowError : PyExc
  | zeroDivisionError : PyExc
deriving DecidableEq

/-- The exception types caught around the `alien_weaponry.py` loop body:
`except OverflowError` (line 123) and `except ZeroDivisionError` (line 137). -/
def awCaught : List PyExc := [PyExc.overflowError, PyExc.zeroDivisionError]

/-- The exception types caught around the `copyandpaste.py` loop body:
only `except OverflowError` (line 94). -/
def cpCaught : List PyExc := [PyExc.overflowError]

/-! ## Time arrays and loop ranges -/

/-- `np.arange(start, stop, step)` for positive `step`: the entries
`start + k * step` for `0 ≤ k < ⌈(stop - start) / step⌉`. -/
def pyArange (start stop step : ℚ) : List ℚ :=
  (List.range (Nat.ceil ((stop - start) / step))).map fun (k : ℕ) => start + (k : ℚ) * step

/-- Python `range(a, b)` as the list `[a, a+1, ..., b-1]`. -/
def pyRange (a b : ℕ) : List ℕ := (List.range b).drop a

/-- `time_array` of `alien_weaponry.py` (line 26). -/
def awTimeArray : List ℚ := pyArange 0 awConsts.total_time awConsts.dt

/-- The loop indices of `alien_weaponry.py`, `range(1, len(time_array))` (line 62). -/
def awLoopIndices : List ℕ := pyRange 1 awTimeArray.length

/-- `time_array` of `copyandpaste.py` (line 24). -/
def cpTimeArray : List ℚ := pyArange 0 cpConsts.total_time cpConsts.dt

/-- The loop indices of `copyandpaste.py`, `range(1, len(time_array))` (line 47). -/
def cpLoopIndices : List ℕ := pyRange 1 cpTimeArray.length

/-! ## Export structure of the two scripts -/

/-- Structured-export formats. -/
inductive ExportKind where
  | json : ExportKind
  | csv : ExportKind
deriving DecidableEq

/-- The per-step result series a record of an export can contain. -/
inductive ResultArr where
  | time_values : ResultArr
  | plasma_velocity : ResultArr
  | lorentz_factor : ResultArr
  | energy_density : ResultArr
  | field_strength : ResultArr
  | temperature : ResultArr
  | pressure : ResultArr
  | quantum_tunneling_probability : ResultArr
  | spacetime_curvature : ResultArr
  | volume : ResultArr
  | time_dilation : ResultArr
  | dimension_portal_probability : ResultArr
deriving DecidableEq

/-- All result arrays filled by the `alien_weaponry.py` loop, plus the time
array. -/
def awAllArrays : List ResultArr :=
  [ResultArr.time_values, ResultArr.plasma_velocity, ResultArr.lorentz_factor,
   ResultArr.energy_density, ResultArr.field_strength, ResultArr.temperature,
   ResultArr.pressure, ResultArr.quantum_tunneling_probability,
   ResultArr.spacetime_curvature, ResultArr.volume, ResultArr.time_dilation,
   ResultArr.dimension_portal_probability]

/-- The arrays written into `simulation_data.json` by `alien_weaponry.py`
(lines 150-166): all of them. -/
def awJsonFields : List ResultArr := awAllArrays

/-- The columns of `simulation_results.csv` written by `alien_weaponry.py`
(lines 314-336): every array except `volume_array`. -/
def awCsvFields : List ResultArr :=
  [ResultArr.time_values, ResultArr.plasma_velocity, ResultArr.lorentz_factor,
   ResultArr.energy_density, ResultArr.field_strength, ResultArr.temperature,
   ResultArr.pressure, ResultArr.quantum_tunneling_probability,
   ResultArr.spacetime_curvature, ResultArr.time_dilation,
   ResultArr.dimension_portal_probability]

/-- The columns of `simulation_data.csv` written via pandas by
`alien_weaponry.py` (lines 343-361): the same columns, again without
`volume_array`. -/
def awPandasCsvFields : List ResultArr := awCsvFields

/-- The structured exports `alien_weaponry.py` performs after its loop:
one JSON dump and two CSV writes. -/
def awExportKinds : List ExportKind := [ExportKind.json, ExportKind.csv, ExportKind.csv]

/-- The structured exports `copyandpaste.py` performs after its loop: none;
the script only renders matplotlib plots (lines 106-256). -/
def cpExportKinds : List ExportKind := []

/-! ## Helper lemmas -/

lemma awConsts_c : awConsts.c = 3 * 10 ^ 8 := rfl

lemma awConsts_damping : awConsts.damping_factor = 1 / 100000 := rfl

lemma awConsts_dt : awConsts.dt = 1 / 10 := by
  norm_num [AWConsts.dt, awConsts]

lemma cpConsts_dt : cpConsts.dt = 1 / 10 := by
  norm_num [CPConsts.dt, cpConsts]

lemma awStep_plasma_velocity (M : MathFns) (C : AWConsts) (i : ℕ) (s : AWState) :
    (awStep M C i s).plasma_velocity =
      if s.plasma_velocity +
          (increasing_acceleration C ((i : ℚ) * C.dt) - C.damping_factor * s.plasma_velocity)
            * C.dt ≥ C.c
      then C.c - 1 / 10 ^ 10
      else s.plasma_velocity +
        (increasing_acceleration C ((i : ℚ) * C.dt) - C.damping_factor * s.plasma_velocity)
          * C.dt := rfl

lemma cpStep_plasma_velocity (M : MathFns) (C : CPConsts) (i : ℕ) (s : CPState) :
    (cpStep M C i s).plasma_velocity =
      s.plasma_velocity +
        (C.acceleration - C.damping_factor * s.plasma_velocity) * C.dt := rfl

/-- On the time interval of the simulation, the interpolated acceleration of
`alien_weaponry.py` stays within its two endpoint values. -/
lemma awAccel_bounds (t : ℚ) (h0 : 0 ≤ t) (h1 : t ≤ 6900) :
    11 / 5 ≤ increasing_acceleration awConsts t ∧
      increasing_acceleration awConsts t ≤ 1381 / 100 := by
  have e : increasing_acceleration awConsts t = 22 / 10 + 1161 / 100 * (t / 6900) := by
    simp only [increasing_acceleration, awConsts]
    ring
  have h2 : t / 6900 ≤ 1 := by
    rw [div_le_one (by norm_num)]
    linarith
  have h3 : 0 ≤ t / 6900 := by positivity
  rw [e]
  constructor <;> linarith

/-- Velocity invariant of `alien_weaponry.py`: over the index range of the
loop the plasma velocity stays within `[0, max_acceleration/damping_factor]`,
far below the speed of light, so the cap at `c - 1e-10` never engages. -/
lemma awVel_bounds (M : MathFns) :
    ∀ i : ℕ, i ≤ 69000 →
      0 ≤ (awState M awConsts i).plasma_velocity ∧
        (awState M awConsts i).plasma_velocity ≤ 1381000 := by
  intro i
  induction i with
  | zero =>
    intro _
    constructor <;> norm_num [awState, awInit]
  | succ n ih =>
    intro h
    have hn := ih (Nat.le_of_succ_le h)
    have ht0 : (0 : ℚ) ≤ ((n + 1 : ℕ) : ℚ) * awConsts.dt := by
      rw [awConsts_dt]
      positivity
    have ht1 : ((n + 1 : ℕ) : ℚ) * awConsts.dt ≤ 6900 := by
      rw [awConsts_dt]
      have : ((n + 1 : ℕ) : ℚ) ≤ 69000 := by exact_mod_cast h
      linarith
    have ha := awAccel_bounds _ ht0 ht1
    have hstep : awState M awConsts (n + 1) = awStep M awConsts (n + 1) (awState M awConsts n) :=
      rfl
    rw [hstep, awStep_plasma_velocity]
    rw [awConsts_c, awConsts_damping, awConsts_dt] at *
    split_ifs with hc
    · exfalso
      nlinarith [hn.1, hn.2, ha.1, ha.2]
    · constructor <;> nlinarith [hn.1, hn.2, ha.1, ha.2]

/-- Velocity invariant of `copyandpaste.py`: the plasma velocity stays within
`[0, acceleration/damping_factor] = [0, 981000]` at every index. -/
lemma cpVel_bounds (M : MathFns) :
    ∀ i : ℕ,
      0 ≤ (cpState M cpConsts i).plasma_velocity ∧
        (cpState M cpConsts i).plasma_velocity ≤ 981000 := by
  intro i
  induction i with
  | zero =>
    constructor <;> norm_num [cpState, cpInit]
  | succ n ih =>
    have hstep : cpState M cpConsts (n + 1) = cpStep M cpConsts (n + 1) (cpState M cpConsts n) :=
      rfl
    rw [hstep, cpStep_plasma_velocity]
    have h1 : cpConsts.acceleration = 981 / 100 := rfl
    have h2 : cpConsts.damping_factor = 1 / 100000 := rfl
    rw [h1, h2, cpConsts_dt]
    constructor <;> nlinarith [ih.1, ih.2]

lemma awStep_caps (M : MathFns) (C : AWConsts) (i : ℕ) (s : AWState) :
    (awStep M C i s).field_strength ≤ C.cap_value ∧
      (awStep M C i s).energy_density ≤ C.cap_value := by
  simp only [awStep]
  constructor
  · split_ifs
    all_goals first
      | exact le_refl _
      | exact le_of_not_lt (by assumption)
  · exact min_le_right _ _

lemma cpStep_caps (M : MathFns) (C : CPConsts) (i : ℕ) (s : CPState) :
    (cpStep M C i s).field_strength ≤ C.cap_value ∧
      (cpStep M C i s).energy_density ≤ C.cap_value := by
  simp only [cpStep]
  constructor
  · split_ifs
    all_goals first
      | exact le_refl _
      | exact le_of_not_lt (by assumption)
  · exact min_le_right _ _

/-! ## Claims -/

/-- C1: every iteration of each simulation loop advances the plasma velocity
by one explicit forward-Euler step of the damped-acceleration ODE: the new
velocity is `v + (acceleration - damping_factor * v) * dt` with `v` the
previous velocity, and in `alien_weaponry.py` the acceleration is the linear
interpolation `initial_acceleration + (max_acceleration -
initial_acceleration) * (t / total_time)` at the current time `t = i * dt`
(the velocity cap at `c - 1e-10` never engages, by `awVel_bounds`). -/
theorem claim_C1_forward_euler_velocity :
    (∀ (M : MathFns) (i : ℕ), i + 1 ≤ 68999 →
      (awState M awConsts (i + 1)).plasma_velocity =
        (awState M awConsts i).plasma_velocity +
          ((awConsts.initial_acceleration +
              (awConsts.max_acceleration - awConsts.initial_acceleration) *
                (((i + 1 : ℕ) : ℚ) * awConsts.dt / awConsts.total_time)) -
            awConsts.damping_factor * (awState M awConsts i).plasma_velocity)
            * awConsts.dt) ∧
    (∀ (M : MathFns) (i : ℕ), i + 1 ≤ 95999 →
      (cpState M cpConsts (i + 1)).plasma_velocity =
        (cpState M cpConsts i).plasma_velocity +
          (cpConsts.acceleration -
            cpConsts.damping_factor * (cpState M cpConsts i).plasma_velocity)
            * cpConsts.dt) := by
  constructor
  · intro M i h
    have hb := awVel_bounds M i (by omega)
    have ht0 : (0 : ℚ) ≤ ((i + 1 : ℕ) : ℚ) * awConsts.dt := by
      rw [awConsts_dt]
      positivity
    have ht1 : ((i + 1 : ℕ) : ℚ) * awConsts.dt ≤ 6900 := by
      rw [awConsts_dt]
      have : ((i + 1 : ℕ) : ℚ) ≤ 69000 := by
        exact_mod_cast (by omega : i + 1 ≤ 69000)
      linarith
    have ha := awAccel_bounds _ ht0 ht1
    have hstep : awState M awConsts (i + 1) =
        awStep M awConsts (i + 1) (awState M awConsts i) := rfl
    rw [hstep, awStep_plasma_velocity, if_neg]
    · simp only [increasing_acceleration]
    · rw [awConsts_c, awConsts_damping, awConsts_dt] at *
      push_neg
      nlinarith [hb.1, hb.2, ha.1, ha.2]
  · intro M i _
    exact cpStep_plasma_velocity M cpConsts (i + 1) (cpState M cpConsts i)

/-- C1 witness: the forward-Euler step evaluated at the first loop iteration
of each script. -/
theorem claim_C1_forward_euler_velocity_witness :
    (0 + 1 ≤ 68999 ∧
      (awState testFns awConsts (0 + 1)).plasma_velocity =
        (awState testFns awConsts 0).plasma_velocity +
          ((awConsts.initial_acceleration +
              (awConsts.max_acceleration - awConsts.initial_acceleration) *
                (((0 + 1 : ℕ) : ℚ) * awConsts.dt / awConsts.total_time)) -
            awConsts.damping_factor * (awState testFns awConsts 0).plasma_velocity)
            * awConsts.dt) ∧
    (0 + 1 ≤ 95999 ∧
      (cpState testFns cpConsts (0 + 1)).plasma_velocity =
        (cpState testFns cpConsts 0).plasma_velocity +
          (cpConsts.acceleration -
            cpConsts.damping_factor * (cpState testFns cpConsts 0).plasma_velocity)
            * cpConsts.dt) :=
  ⟨⟨by decide, claim_C1_forward_euler_velocity.1 testFns 0 (by decide)⟩,
   ⟨by decide, claim_C1_forward_euler_velocity.2 testFns 0 (by decide)⟩⟩

/-- C2: in both scripts, the spacetime curvature stored by loop iteration
`i + 1` equals `2 * E / c^4` where `E` is the energy density computed at the
same iteration and `c = 3e8`. -/
theorem claim_C2_curvature_formula :
    ∀ (M : MathFns) (i : ℕ),
      (awState M awConsts (i + 1)).spacetime_curvature =
        2 * (awState M awConsts (i + 1)).energy_density / (3 * 10 ^ 8) ^ 4 ∧
      (cpState M cpConsts (i + 1)).spacetime_curvature =
        2 * (cpState M cpConsts (i + 1)).energy_density / (3 * 10 ^ 8) ^ 4 := by
  intro M i
  exact ⟨rfl, rfl⟩

/-- C3: after every loop iteration, the field strength is at most the
script's cap value (`1e35` resp. `1e24`) because the multiplicative update
is clamped, and the energy density is at most the cap value because it is
set through `min`. -/
theorem claim_C3_capping_invariant :
    ∀ (M : MathFns) (i : ℕ),
      (awState M awConsts (i + 1)).field_strength ≤ 10 ^ 35 ∧
      (awState M awConsts (i + 1)).energy_density ≤ 10 ^ 35 ∧
      (cpState M cpConsts (i + 1)).field_strength ≤ 10 ^ 24 ∧
      (cpState M cpConsts (i + 1)).energy_density ≤ 10 ^ 24 := by
  intro M i
  have ha := awStep_caps M awConsts (i + 1) (awState M awConsts i)
  have hc := cpStep_caps M cpConsts (i + 1) (cpState M cpConsts i)
  exact ⟨ha.1, ha.2, hc.1, hc.2⟩

lemma cpStep_lorentz (M : MathFns) (C : CPConsts) (i : ℕ) (s : CPState) :
    (cpStep M C i s).lorentz_factor =
      if (cpStep M C i s).plasma_velocity < C.c
      then 1 / M.sqrt (1 - ((cpStep M C i s).plasma_velocity / C.c) ^ 2)
      else (cpStep M C i s).plasma_velocity / C.c := rfl

/-- C9: in `copyandpaste.py` the plasma velocity stays strictly below
`c = 3e8` at every index, bounded by the terminal value
`acceleration / damping_factor = 9.81e5`; hence the Lorentz-factor branch
condition `plasma_velocity < c` always holds, the square-root argument
`1 - (plasma_velocity / c)^2` is strictly positive, and every stored Lorentz
factor comes from the square-root branch, never the `plasma_velocity / c`
fallback. -/
theorem claim_C9_velocity_below_c :
    ∀ (M : MathFns) (i : ℕ),
      (cpState M cpConsts i).plasma_velocity ≤ 981000 ∧
      (981000 : ℚ) = cpConsts.acceleration / cpConsts.damping_factor ∧
      (cpState M cpConsts i).plasma_velocity < 3 * 10 ^ 8 ∧
      0 < 1 - ((cpState M cpConsts i).plasma_velocity / (3 * 10 ^ 8)) ^ 2 ∧
      (cpState M cpConsts (i + 1)).lorentz_factor =
        1 / M.sqrt (1 - ((cpState M cpConsts (i + 1)).plasma_velocity / cpConsts.c) ^ 2) := by
  intro M i
  have hb := cpVel_bounds M i
  have hb1 := cpVel_bounds M (i + 1)
  have hlt : (cpState M cpConsts i).plasma_velocity < 3 * 10 ^ 8 := by linarith [hb.2]
  have hq : (cpState M cpConsts i).plasma_velocity / (3 * 10 ^ 8) < 1 := by
    rw [div_lt_one (by norm_num)]
    exact hlt
  have hq0 : 0 ≤ (cpState M cpConsts i).plasma_velocity / (3 * 10 ^ 8) := by
    have := hb.1
    positivity
  refine ⟨hb.2, by norm_num [cpConsts], hlt, by nlinarith, ?_⟩
  have hstep : cpState M cpConsts (i + 1) =
      cpStep M cpConsts (i + 1) (cpState M cpConsts i) := rfl
  rw [hstep, cpStep_lorentz, if_pos]
  rw [← hstep]
  have : cpConsts.c = 3 * 10 ^ 8 := rfl
  rw [this]
  linarith [hb1.2]

/-- Temperature update of one `alien_weaponry.py` iteration (line 98). -/
lemma awStep_temperature (M : MathFns) (C : AWConsts) (i : ℕ) (s : AWState) :
    (awStep M C i s).temperature = s.temperature + 10 ^ 5 * C.dt := rfl

/-- Temperature update of one `copyandpaste.py` iteration (line 74). -/
lemma cpStep_temperature (M : MathFns) (C : CPConsts) (i : ℕ) (s : CPState) :
    (cpStep M C i s).temperature = s.temperature + 10 ^ 5 * C.dt := rfl

lemma awTemp_closed (M : MathFns) (k : ℕ) :
    (awState M awConsts k).temperature = 10 ^ 7 + (k : ℚ) * 10 ^ 4 := by
  induction k with
  | zero => norm_num [awState, awInit]
  | succ n ih =>
    have hstep : awState M awConsts (n + 1) =
        awStep M awConsts (n + 1) (awState M awConsts n) := rfl
    rw [hstep, awStep_temperature, ih, awConsts_dt]
    push_cast
    ring

lemma cpTemp_closed (M : MathFns) (k : ℕ) :
    (cpState M cpConsts k).temperature = 10 ^ 7 + (k : ℚ) * 10 ^ 4 := by
  induction k with
  | zero => norm_num [cpState, cpInit]
  | succ n ih =>
    have hstep : cpState M cpConsts (n + 1) =
        cpStep M cpConsts (n + 1) (cpState M cpConsts n) := rfl
    rw [hstep, cpStep_temperature, ih, cpConsts_dt]
    push_cast
    ring

/-- C10: in both scripts the temperature after `k` loop iterations has the
closed form `1e7 + k * 1e5 * dt` with `dt = 0.1`, an increase of exactly
`1e4` per step, so the stored temperatures are strictly increasing in the
step index. -/
theorem claim_C10_temperature_closed_form :
    (∀ (M : MathFns) (k : ℕ),
      (awState M awConsts k).temperature = 10 ^ 7 + (k : ℚ) * (10 ^ 5 * awConsts.dt) ∧
      (cpState M cpConsts k).temperature = 10 ^ 7 + (k : ℚ) * (10 ^ 5 * cpConsts.dt) ∧
      awConsts.dt = 1 / 10 ∧ cpConsts.dt = 1 / 10 ∧
      (awState M awConsts k).temperature = 10 ^ 7 + (k : ℚ) * 10 ^ 4 ∧
      (cpState M cpConsts k).temperature = 10 ^ 7 + (k : ℚ) * 10 ^ 4) ∧
    (∀ (M : MathFns) (j k : ℕ), j < k →
      (awState M awConsts j).temperature < (awState M awConsts k).temperature ∧
      (cpState M cpConsts j).temperature < (cpState M cpConsts k).temperature) := by
  constructor
  · intro M k
    refine ⟨?_, ?_, awConsts_dt, cpConsts_dt, awTemp_closed M k, cpTemp_closed M k⟩
    · rw [awTemp_closed M k, awConsts_dt]
      ring
    · rw [cpTemp_closed M k, cpConsts_dt]
      ring
  · intro M j k h
    have hc : (j : ℚ) < (k : ℚ) := by exact_mod_cast h
    rw [awTemp_closed M j, awTemp_closed M k, cpTemp_closed M j, cpTemp_closed M k]
    constructor <;> linarith

/-- C10 witness: the closed form and strict monotonicity evaluated at the
first two steps. -/
theorem claim_C10_temperature_closed_form_witness :
    0 < 1 ∧
    (awState testFns awConsts 0).temperature < (awState testFns awConsts 1).temperature ∧
    (cpState testFns cpConsts 0).temperature < (cpState testFns cpConsts 1).temperature :=
  ⟨by decide,
   (claim_C10_temperature_closed_form.2 testFns 0 1 (by decide)).1,
   (claim_C10_temperature_closed_form.2 testFns 0 1 (by decide)).2⟩

/-- C7: each simulation loop runs over a fixed number of steps and
terminates, executing exactly `len(time_array) - 1` iterations, where
`time_array` has exactly `time_steps = total_time / dt` entries: 69,000
entries and 68,999 iterations in `alien_weaponry.py`, 96,000 entries and
95,999 iterations in `copyandpaste.py`. -/
theorem claim_C7_iteration_counts :
    awTimeArray.length = 69000 ∧
    (awConsts.total_time / awConsts.dt : ℚ) = (awConsts.time_steps : ℚ) ∧
    awConsts.time_steps = 69000 ∧
    awLoopIndices.length = awTimeArray.length - 1 ∧
    awLoopIndices.length = 68999 ∧
    cpTimeArray.length = 96000 ∧
    (cpConsts.total_time / cpConsts.dt : ℚ) = (cpConsts.time_steps : ℚ) ∧
    cpConsts.time_steps = 96000 ∧
    cpLoopIndices.length = cpTimeArray.length - 1 ∧
    cpLoopIndices.length = 95999 := by
  have ha : awTimeArray.length = 69000 := by
    rw [awTimeArray, pyArange, List.length_map, List.length_range, awConsts_dt]
    norm_num [awConsts, Nat.ceil_ofNat]
  have hc : cpTimeArray.length = 96000 := by
    rw [cpTimeArray, pyArange, List.length_map, List.length_range, cpConsts_dt]
    norm_num [cpConsts, Nat.ceil_ofNat]
  have hla : awLoopIndices.length = awTimeArray.length - 1 := by
    rw [awLoopIndices, pyRange, List.length_drop, List.length_range]
  have hlc : cpLoopIndices.length = cpTimeArray.length - 1 := by
    rw [cpLoopIndices, pyRange, List.length_drop, List.length_range]
  refine ⟨ha, ?_, rfl, hla, ?_, hc, ?_, rfl, hlc, ?_⟩
  · rw [awConsts_dt]
    norm_num [awConsts]
  · rw [hla, ha]
  · rw [cpConsts_dt]
    norm_num [cpConsts]
  · rw [hlc, hc]

/-- C5 counterexample: the `copyandpaste.py` loop body is guarded only by an
`OverflowError` handler, not by a `ZeroDivisionError` handler, so the claim
that each script catches both exception types fails on `copyandpaste.py`. -/
theorem claim_C5_counterexample :
    cpCaught ≠ [PyExc.overflowError, PyExc.zeroDivisionError] ∧
      PyExc.zeroDivisionError ∉ cpCaught := by
  decide

/-- C5 amended: the `alien_weaponry.py` loop body is guarded by handlers for
exactly `OverflowError` and `ZeroDivisionError`, while the `copyandpaste.py`
loop body is guarded by a handler for `OverflowError` only. -/
theorem claim_C5_exception_clauses :
    awCaught = [PyExc.overflowError, PyExc.zeroDivisionError] ∧
    cpCaught = [PyExc.overflowError] ∧
    PyExc.zeroDivisionError ∉ cpCaught := by
  decide

/-- C8 counterexample: `copyandpaste.py` performs no JSON and no CSV export
at all after its loop, and the CSV exports of `alien_weaponry.py` omit
`volume_array`, so the claim that both scripts export every result array to
JSON and CSV fails. -/
theorem claim_C8_counterexample :
    cpExportKinds = [] ∧
    ExportKind.json ∉ cpExportKinds ∧
    ExportKind.csv ∉ cpExportKinds ∧
    ResultArr.volume ∉ awCsvFields := by
  decide

/-- C8 amended: after its loop, `alien_weaponry.py` exports to JSON (the
record containing every result array) and to CSV (twice, each time with
every result array except `volume_array`), while `copyandpaste.py` only
renders plots and performs no JSON or CSV export. -/
theorem claim_C8_exports :
    ExportKind.json ∈ awExportKinds ∧
    ExportKind.csv ∈ awExportKinds ∧
    awJsonFields = awAllArrays ∧
    (awCsvFields ++ [ResultArr.volume]).Perm awAllArrays ∧
    awPandasCsvFields = awCsvFields ∧
    cpExportKinds = [] := by
  decide

/-- Concrete `copyandpaste.py` arrays used to evaluate the handler: energy
density 5 everywhere, all other arrays 0. -/
def cpArrsTest : CPArrays :=
  { plasma_velocity_array := fun _ => 0
    lorentz_factor_array := fun _ => 0
    energy_density_array := fun _ => 5
    field_strength_array := fun _ => 0
    temperature_array := fun _ => 0
    pressure_array := fun _ => 0
    quantum_tunneling_probability_array := fun _ => 0
    spacetime_curvature_array := fun _ => 0
    volume_array := fun _ => 0 }

/-- Concrete `alien_weaponry.py` arrays used to evaluate the handler. -/
def awArrsTest : AWArrays :=
  { plasma_velocity_array := fun _ => 0
    lorentz_factor_array := fun _ => 0
    energy_density_array := fun _ => 5
    field_strength_array := fun _ => 0
    temperature_array := fun _ => 0
    pressure_array := fun _ => 0
    quantum_tunneling_probability_array := fun _ => 0
    spacetime_curvature_array := fun _ => 0
    volume_array := fun _ => 0
    time_dilation_array := fun _ => 0
    dimension_portal_probability_array := fun _ => 0 }

/-- C4 counterexample: at iteration 1, with previous energy density 5, the
`copyandpaste.py` OverflowError handler stores `cap_value = 1e24` into
`energy_density_array[1]`, not the previous value, refuting the claim that
every array slot at index `i` is set to the value at index `i - 1`. -/
theorem claim_C4_counterexample :
    cpArrsTest.energy_density_array 0 = 5 ∧
    (cpOverflowHandler cpConsts cpArrsTest 1).energy_density_array 1 = 10 ^ 24 ∧
    (cpOverflowHandler cpConsts cpArrsTest 1).energy_density_array 1 ≠
      cpArrsTest.energy_density_array 0 := by
  decide

/-- C4 amended: for loop iterations `i ≥ 1`, the `copyandpaste.py`
OverflowError handler copies the previous value forward for every array
except `energy_density_array`, which it sets to `cap_value = 1e24`; the
`alien_weaponry.py` handler copies the previous value for
`plasma_velocity_array` and `lorentz_factor_array`, then its line
`energy_density_array[i] = cap_value[i-1]` subscripts the float `cap_value`
and raises `TypeError`, leaving every remaining array unmodified. -/
theorem claim_C4_handler_behavior (a : CPArrays) (b : AWArrays) (i : ℕ) (_hi : 1 ≤ i) :
    ((cpOverflowHandler cpConsts a i).plasma_velocity_array i =
        a.plasma_velocity_array (i - 1) ∧
      (cpOverflowHandler cpConsts a i).lorentz_factor_array i =
        a.lorentz_factor_array (i - 1) ∧
      (cpOverflowHandler cpConsts a i).energy_density_array i = cpConsts.cap_value ∧
      cpConsts.cap_value = 10 ^ 24 ∧
      (cpOverflowHandler cpConsts a i).field_strength_array i =
        a.field_strength_array (i - 1) ∧
      (cpOverflowHandler cpConsts a i).temperature_array i =
        a.temperature_array (i - 1) ∧
      (cpOverflowHandler cpConsts a i).pressure_array i =
        a.pressure_array (i - 1) ∧
      (cpOverflowHandler cpConsts a i).quantum_tunneling_probability_array i =
        a.quantum_tunneling_probability_array (i - 1) ∧
      (cpOverflowHandler cpConsts a i).spacetime_curvature_array i =
        a.spacetime_curvature_array (i - 1) ∧
      (cpOverflowHandler cpConsts a i).volume_array i = a.volume_array (i - 1)) ∧
    ((awOverflowHandler awConsts b i).2 = Except.error PyErr.typeError ∧
      (awOverflowHandler awConsts b i).1.plasma_velocity_array i =
        b.plasma_velocity_array (i - 1) ∧
      (awOverflowHandler awConsts b i).1.lorentz_factor_array i =
        b.lorentz_factor_array (i - 1) ∧
      (awOverflowHandler awConsts b i).1.energy_density_array = b.energy_density_array ∧
      (awOverflowHandler awConsts b i).1.field_strength_array = b.field_strength_array ∧
      (awOverflowHandler awConsts b i).1.temperature_array = b.temperature_array ∧
      (awOverflowHandler awConsts b i).1.pressure_array = b.pressure_array ∧
      (awOverflowHandler awConsts b i).1.quantum_tunneling_probability_array =
        b.quantum_tunneling_probability_array ∧
      (awOverflowHandler awConsts b i).1.spacetime_curvature_array =
        b.spacetime_curvature_array ∧
      (awOverflowHandler awConsts b i).1.volume_array = b.volume_array ∧
      (awOverflowHandler awConsts b i).1.time_dilation_array = b.time_dilation_array ∧
      (awOverflowHandler awConsts b i).1.dimension_portal_probability_array =
        b.dimension_portal_probability_array) := by
  constructor
  · refine ⟨?_, ?_, ?_, rfl, ?_, ?_, ?_, ?_, ?_, ?_⟩ <;>
      simp [cpOverflowHandler, upd]
  · refine ⟨?_, ?_, ?_, ?_, ?_, ?_, ?_, ?_, ?_, ?_, ?_, ?_⟩ <;>
      simp [awOverflowHandler, upd, pySubscript]

/-- C4 witness: the amended handler description evaluated at iteration 1 on
concrete arrays. -/
theorem claim_C4_handler_behavior_witness :
    1 ≤ 1 ∧
      (cpOverflowHandler cpConsts cpArrsTest 1).energy_density_array 1 =
        cpConsts.cap_value :=
  ⟨by decide,
   (claim_C4_handler_behavior cpArrsTest awArrsTest 1 (by decide)).1.2.2.1⟩

/-! ## Shared-constant instantiation of the two loops -/

/-- One assignment of values to the constants both scripts name; the single
acceleration constant instantiates `acceleration` in `copyandpaste.py` and
both `initial_acceleration` and `max_acceleration` in `alien_weaponry.py`. -/
structure SharedConsts where
  c : ℚ
  B : ℚ
  acceleration : ℚ
  damping_factor : ℚ
  mass_particle : ℚ
  num_particles : ℚ
  cap_value : ℚ
  observer_influence_factor : ℚ
  observer_interval : ℕ
  initial_observers : ℚ
  volume_per_observer : ℚ
  total_time : ℚ
  time_steps : ℕ

/-- Instantiate the `alien_weaponry.py` loop with the shared constants. -/
def SharedConsts.toAW (S : SharedConsts) : AWConsts :=
  { c := S.c
    B := S.B
    initial_acceleration := S.acceleration
    max_acceleration := S.acceleration
    damping_factor := S.damping_factor
    mass_particle := S.mass_particle
    num_particles := S.num_particles
    cap_value := S.cap_value
    observer_influence_factor := S.observer_influence_factor
    observer_interval := S.observer_interval
    initial_observers := S.initial_observers
    volume_per_observer := S.volume_per_observer
    total_time := S.total_time
    time_steps := S.time_steps }

/-- Instantiate the `copyandpaste.py` loop with the shared constants. -/
def SharedConsts.toCP (S : SharedConsts) : CPConsts :=
  { c := S.c
    B := S.B
    acceleration := S.acceleration
    damping_factor := S.damping_factor
    mass_particle := S.mass_particle
    num_particles := S.num_particles
    cap_value := S.cap_value
    observer_influence_factor := S.observer_influence_factor
    observer_interval := S.observer_interval
    initial_observers := S.initial_observers
    volume_per_observer := S.volume_per_observer
    total_time := S.total_time
    time_steps := S.time_steps }

/-- A concrete shared assignment with observer updates every step. -/
def sharedTest : SharedConsts :=
  { c := 3 * 10 ^ 8
    B := 30
    acceleration := 981 / 100
    damping_factor := 1 / 100000
    mass_particle := 167 / 10 ^ 29
    num_particles := 10 ^ 30
    cap_value := 10 ^ 24
    observer_influence_factor := 11 / 10
    observer_interval := 1
    initial_observers := 1
    volume_per_observer := 1
    total_time := 9600
    time_steps := 96000 }

/-- C6 counterexample: instantiating both loops with equal constant values
(`sharedTest`, observer interval 1) and running them from their initial
states already yields different volume results at step 1: the
`alien_weaponry.py` observer update adds 2 (giving volume 3) while the
`copyandpaste.py` update doubles (giving volume 2), so the loops do not
perform the same sequence of state updates up to constant drift. -/
theorem claim_C6_counterexample :
    (awState testFns sharedTest.toAW 1).volume ≠
      (cpState testFns sharedTest.toCP 1).volume := by
  have h1 : (awState testFns sharedTest.toAW 1).volume = 3 := by
    show (awStep testFns sharedTest.toAW 1 (awInit sharedTest.toAW)).volume = 3
    simp [awStep, awInit, sharedTest, SharedConsts.toAW]
    norm_num
  have h2 : (cpState testFns sharedTest.toCP 1).volume = 2 := by
    show (cpStep testFns sharedTest.toCP 1 (cpInit sharedTest.toCP)).volume = 2
    simp [cpStep, cpInit, sharedTest, SharedConsts.toCP]
    norm_num
  rw [h1, h2]
  norm_num

/-- C6 amended: the loops are near-duplicates, but beyond constant drift
they differ in the observer update (add 2 under a threshold test vs double
with a cap), the pressure update (constant magnetic pressure vs linear
increment), the acceleration (time interpolation vs constant), the velocity
capping, and the extra arrays of `alien_weaponry.py`.  What does hold: with
equal constant values, equal incoming shared state, at a step index that is
not a multiple of the observer interval and whose Euler-updated velocity
stays below `c`, the two loop bodies store the same plasma velocity, Lorentz
factor, field strength, energy density, volume, temperature, quantum
tunneling probability, and spacetime curvature (pressure and the
observer-update steps genuinely differ). -/
theorem claim_C6_step_agreement (M : MathFns) (S : SharedConsts) (i : ℕ)
    (sa : AWState) (sc : CPState)
    (hv : sa.plasma_velocity = sc.plasma_velocity)
    (hf : sa.field_strength = sc.field_strength)
    (ht : sa.temperature = sc.temperature)
    (ho : sa.current_observers = sc.current_observers)
    (hobs : ¬ i % S.observer_interval = 0)
    (hc : sc.plasma_velocity +
        (S.acceleration - S.damping_factor * sc.plasma_velocity) *
          (S.total_time / (S.time_steps : ℚ)) < S.c) :
    (awStep M S.toAW i sa).plasma_velocity = (cpStep M S.toCP i sc).plasma_velocity ∧
    (awStep M S.toAW i sa).lorentz_factor = (cpStep M S.toCP i sc).lorentz_factor ∧
    (awStep M S.toAW i sa).field_strength = (cpStep M S.toCP i sc).field_strength ∧
    (awStep M S.toAW i sa).energy_density = (cpStep M S.toCP i sc).energy_density ∧
    (awStep M S.toAW i sa).volume = (cpStep M S.toCP i sc).volume ∧
    (awStep M S.toAW i sa).temperature = (cpStep M S.toCP i sc).temperature ∧
    (awStep M S.toAW i sa).quantum_tunneling_probability =
      (cpStep M S.toCP i sc).quantum_tunneling_probability ∧
    (awStep M S.toAW i sa).spacetime_curvature =
      (cpStep M S.toCP i sc).spacetime_curvature := by
  have hnc : ¬ S.c ≤ sc.plasma_velocity +
      (S.acceleration - S.damping_factor * sc.plasma_velocity) *
        (S.total_time / (S.time_steps : ℚ)) := not_le.mpr hc
  refine ⟨?_, ?_, ?_, ?_, ?_, ?_, ?_, ?_⟩ <;>
  · simp only [awStep, cpStep, increasing_acceleration, SharedConsts.toAW,
      SharedConsts.toCP, AWConsts.dt, CPConsts.dt]
    simp only [hv, hf, ht, ho, sub_self, zero_mul, add_zero]
    try simp only [hobs, false_and, if_false, ite_false, ge_iff_le, hnc, hc,
      if_true, ite_true]

/-- The shared assignment with the `copyandpaste.py` observer interval 45. -/
def sharedTest45 : SharedConsts := { sharedTest with observer_interval := 45 }

/-- A concrete incoming state for the `alien_weaponry.py` loop body. -/
def awStateTest : AWState :=
  { plasma_velocity := 0
    lorentz_factor := 1
    energy_density := 0
    field_strength := 10 ^ 20
    temperature := 10 ^ 7
    pressure := 100000
    quantum_tunneling_probability := 1 / 10
    spacetime_curvature := 1 / 10 ^ 35
    current_observers := 1
    volume := 0
    time_dilation := 0
    dimension_portal_probability := 0 }

/-- The same incoming state for the `copyandpaste.py` loop body. -/
def cpStateTest : CPState :=
  { plasma_velocity := 0
    lorentz_factor := 1
    energy_density := 0
    field_strength := 10 ^ 20
    temperature := 10 ^ 7
    pressure := 100000
    quantum_tunneling_probability := 1 / 10
    spacetime_curvature := 1 / 10 ^ 35
    current_observers := 1
    volume := 0 }

/-- C6 witness: the step agreement evaluated at step 1 on concrete equal
states under the shared constants. -/
theorem claim_C6_step_agreement_witness :
    awStateTest.plasma_velocity = cpStateTest.plasma_velocity ∧
    awStateTest.field_strength = cpStateTest.field_strength ∧
    awStateTest.temperature = cpStateTest.temperature ∧
    awStateTest.current_observers = cpStateTest.current_observers ∧
    ¬ (1 % sharedTest45.observer_interval = 0) ∧
    cpStateTest.plasma_velocity +
        (sharedTest45.acceleration -
            sharedTest45.damping_factor * cpStateTest.plasma_velocity) *
          (sharedTest45.total_time / (sharedTest45.time_steps : ℚ)) < sharedTest45.c ∧
    (awStep testFns sharedTest45.toAW 1 awStateTest).volume =
      (cpStep testFns sharedTest45.toCP 1 cpStateTest).volume :=
  ⟨rfl, rfl, rfl, rfl, by decide, by norm_num [sharedTest45, sharedTest, cpStateTest],
   (claim_C6_step_agreement testFns sharedTest45 1 awStateTest cpStateTest rfl rfl rfl rfl
      (by decide)
      (by norm_num [sharedTest45, sharedTest, cpStateTest])).2.2.2.2.1⟩
